import Mathlib

/-
Shallow embedding of the SRAL framework workers (Evaluator and Generator)
and proofs about them.

Modelling conventions:
- JavaScript numbers are modelled as rationals. All arithmetic in the
  embedded code paths is exact on the inputs of interest.
- JavaScript objects used as string-keyed records are modelled as
  association lists with an update operation that overwrites the value at
  an existing key and appends otherwise, which matches property assignment.
- Host functionality (the Workers AI binding, JSON.parse, the lint engine,
  R2, the orchestrator stub) is passed in as explicit function parameters,
  so the embedded workers are pure functions of their inputs and of the
  behaviour of those bindings.
- Exceptions are modelled with explicit outcome types; a try/catch becomes
  a match on the outcome.
-/

namespace SRAL

/-- A JSON-like value, used to model the dynamically typed values that
appear in test configurations and handler detail records. -/
inductive JVal where
  | null : JVal
  | bool (b : Bool) : JVal
  | num (q : ℚ) : JVal
  | str (s : String) : JVal
  | arr (xs : List JVal) : JVal
  | obj (fields : List (String × JVal)) : JVal

/-- JavaScript truthiness for a JVal: null, false, 0 and the empty string
are falsy, every array and object is truthy. -/
def jvTruthy : JVal → Bool
  | .null => false
  | .bool b => b
  | .num q => q != 0
  | .str s => s != ""
  | .arr _ => true
  | .obj _ => true

/-- Property lookup on a JVal when it is an object; none when the value is
not an object or the key is absent, modelling an access that yields
undefined. -/
def jsGetField : JVal → String → Option JVal
  | .obj fields, k => lookupField fields k
  | _, _ => none
where
  lookupField : List (String × JVal) → String → Option JVal
    | [], _ => none
    | p :: fs, k => if p.1 = k then some p.2 else lookupField fs k

/-- Test-specific configuration object, from ScorecardTest.config in the
shared data contracts. -/
abbrev Config := List (String × JVal)

/-- Per-test result returned by an evaluator handler, from the TestResult
interface of the evaluator worker. -/
structure TestResult where
  score : ℚ
  details : List (String × JVal)
  error : Option String

/-- Outcome of invoking a test handler: either a returned TestResult or a
thrown exception carrying its message. -/
inductive HandlerOutcome where
  | ok (r : TestResult) : HandlerOutcome
  | exn (msg : String) : HandlerOutcome

/-- A test handler as registered in the evaluator worker: a function of the
artifact source code and the test configuration. -/
abbrev HandlerFn := String → Config → HandlerOutcome

/-- One entry of a scorecard, from the ScorecardTest interface of the
shared data contracts. -/
structure ScorecardTest where
  type : String
  weight : ℚ
  config : Config

/-- A scorecard, from the Scorecard interface of the shared data
contracts. -/
structure Scorecard where
  tests : List ScorecardTest

/-- The body of an evaluation request, from the EvaluationRequest contract:
an artifact path and a scorecard. -/
structure EvaluationRequest where
  artifact_path : String
  scorecard : Scorecard

/-- The per-test record produced inside the evaluator worker before
aggregation: the test type, its weight, and the handler result. -/
structure TaggedResult where
  type : String
  weight : ℚ
  result : TestResult

/-- Execution of one scorecard test by the evaluator worker: dispatch on
the registry keyed by test type; an unregistered type yields a zero score
with an error message; a thrown handler exception is caught and converted
into a zero score with the exception message. -/
def runTest (registry : String → Option HandlerFn) (sourceCode : String)
    (t : ScorecardTest) : TaggedResult :=
  match registry t.type with
  | none => ⟨t.type, t.weight, ⟨0, [], some ("Unknown test type: " ++ t.type)⟩⟩
  | some handler =>
    match handler sourceCode t.config with
    | .ok r => ⟨t.type, t.weight, r⟩
    | .exn msg => ⟨t.type, t.weight, ⟨0, [], some msg⟩⟩

/-- The details record of an evaluation response, mapping a test type to
its TestResult. -/
abbrev Details := List (String × TestResult)

/-- Property assignment on the details record: overwrite the value at an
existing key, append a new binding otherwise. -/
def objSet : Details → String → TestResult → Details
  | [], k, v => [(k, v)]
  | p :: d, k, v => if p.1 = k then (k, v) :: d else p :: objSet d k v

/-- Property lookup on the details record. -/
def objGet : Details → String → Option TestResult
  | [], _ => none
  | p :: d, k => if p.1 = k then some p.2 else objGet d k

/-- Number of bindings of a given key in a details record. -/
def keyCount : Details → String → Nat
  | [], _ => 0
  | p :: d, k => (if p.1 = k then 1 else 0) + keyCount d k

/-- The result of the last element of the list whose type is the given
key, if any; used to describe which per-test result survives in the
details record when test types collide. -/
def lastResultOf (k : String) : List TaggedResult → Option TestResult
  | [] => none
  | tr :: rs =>
    match lastResultOf k rs with
    | some r => some r
    | none => if tr.type = k then some tr.result else none

/-- Accumulator of the aggregation loop of the evaluator worker. -/
structure Agg where
  totalWeightedScore : ℚ
  totalWeight : ℚ
  details : Details

/-- The aggregation loop of the evaluator worker over the per-test
results: accumulate the weighted score sum and the weight sum and assign
each result into the details record keyed by test type. -/
def collectAux (acc : Agg) : List TaggedResult → Agg
  | [] => acc
  | tr :: rs =>
    collectAux
      ⟨acc.totalWeightedScore + tr.result.score * tr.weight,
       acc.totalWeight + tr.weight,
       objSet acc.details tr.type tr.result⟩ rs

/-- Aggregation starting from the zero accumulator, as in the worker. -/
def collect (rs : List TaggedResult) : Agg := collectAux ⟨0, 0, []⟩ rs

/-- The body of an evaluation response: the combined quality score and the
details record. -/
structure EvalResponse where
  quality_score : ℚ
  details : Details

/-- The successful path of the evaluator worker on fetched source code:
run every scorecard test, aggregate, and divide the weighted score sum by
the weight sum when the weight sum is positive, zero otherwise. -/
def evalOnSource (registry : String → Option HandlerFn) (sourceCode : String)
    (sc : Scorecard) : EvalResponse :=
  let rs := sc.tests.map (runTest registry sourceCode)
  let agg := collect rs
  ⟨if 0 < agg.totalWeight then agg.totalWeightedScore / agg.totalWeight else 0,
   agg.details⟩

/-- The possible HTTP responses of the evaluator worker fetch handler. -/
inductive EvalHttp where
  | methodNotAllowed : EvalHttp
  | serverError (msg : String) : EvalHttp
  | artifactNotFound (path : String) : EvalHttp
  | ok (resp : EvalResponse) : EvalHttp

/-- HTTP status code of an evaluator response. -/
def evalStatus : EvalHttp → Nat
  | .methodNotAllowed => 405
  | .serverError _ => 500
  | .artifactNotFound _ => 404
  | .ok _ => 200

/-- The evaluator worker fetch handler: reject non-POST methods with 405;
a body that fails to parse is caught by the outer try/catch and becomes a
500; a missing artifact yields 404; otherwise evaluate the fetched source
code against the scorecard. The R2 binding is modelled as a function from
paths to optional text. -/
def evalFetch (registry : String → Option HandlerFn) (method : String)
    (body : Option EvaluationRequest) (r2get : String → Option String) : EvalHttp :=
  if method ≠ "POST" then .methodNotAllowed
  else
    match body with
    | none => .serverError "Evaluation failed for artifact"
    | some req =>
      match r2get req.artifact_path with
      | none => .artifactNotFound req.artifact_path
      | some sourceCode => .ok (evalOnSource registry sourceCode req.scorecard)

/-- JavaScript whitespace as used by the regex escape for whitespace and
by string trimming; the common whitespace characters. -/
def isJsWs (c : Char) : Bool :=
  c = ' ' || c = '\t' || c = '\n' || c = '\r' || c = '\x0b' || c = '\x0c'

/-- JavaScript string trimming: remove whitespace from both ends. Defined
structurally over the character list so that it evaluates by reduction. -/
def jsTrim (s : String) : String :=
  String.mk (((s.toList.dropWhile isJsWs).reverse.dropWhile isJsWs).reverse)

/-- A lint issue as produced by the basic lint pass of the linter handler. -/
structure LintIssue where
  line : Nat
  column : Nat
  severity : String
  message : String
  ruleId : String

/-- Encoding of a lint issue as a JSON-like value for the details record. -/
def issueToJVal (i : LintIssue) : JVal :=
  .obj [("line", .num i.line), ("column", .num i.column),
        ("severity", .str i.severity), ("message", .str i.message),
        ("ruleId", .str i.ruleId)]

/-- The body of the linter handler of the evaluator. The basic lint pass
(performBasicLinting, whose JavaScript syntax check runs the host parser)
is passed in as a function from source code to the pair of error and
warning issue lists. Empty or whitespace-only source scores 100; otherwise
the score starts at 100 and each error costs 10 points and each warning 2,
floored at 0. -/
def linterResult (basicLint : String → List LintIssue × List LintIssue)
    (sourceCode : String) (_config : Config) : TestResult :=
  if sourceCode = "" ∨ jsTrim sourceCode = "" then
    ⟨100, [("errors", .num 0), ("warnings", .num 0), ("totalIssues", .num 0),
           ("messages", .arr [])], none⟩
  else
    let p := basicLint sourceCode
    let errorCount : ℚ := p.1.length
    let warningCount : ℚ := p.2.length
    let totalPenalty := errorCount * 10 + warningCount * 2
    ⟨max 0 (100 - totalPenalty),
     [("errors", .num errorCount), ("warnings", .num warningCount),
      ("totalIssues", .num (errorCount + warningCount)),
      ("messages", .arr ((p.1 ++ p.2).map issueToJVal))], none⟩

/-- The linter handler: its whole body is wrapped in a try/catch, and the
body itself never throws, so it always returns its TestResult. -/
def handleLinter (basicLint : String → List LintIssue × List LintIssue) : HandlerFn :=
  fun sourceCode config => .ok (linterResult basicLint sourceCode config)

/-- Drops the given pattern from the front of a character list, comparing
characters exactly; none when the list does not start with the pattern. -/
def dropPat : List Char → List Char → Option (List Char)
  | [], cs => some cs
  | _ :: _, [] => none
  | p :: ps, c :: cs => if p = c then dropPat ps cs else none

theorem dropPat_length : ∀ (ps cs rem : List Char),
    dropPat ps cs = some rem → rem.length ≤ cs.length := by
  intro ps
  induction ps with
  | nil => intro cs rem h; simp [dropPat] at h; simp [h]
  | cons p ps ih =>
    intro cs rem h
    cases cs with
    | nil => simp [dropPat] at h
    | cons c cs =>
      simp only [dropPat] at h
      by_cases hpc : p = c
      · simp [hpc] at h
        have := ih cs rem h
        simp; omega
      · simp [hpc] at h

/-- Removes every occurrence of the pattern (given as its first character
and the remaining characters) followed by an optional newline, scanning
left to right without rescanning removed material, as a global regex
replace with an empty replacement does. -/
def stripOcc (p0 : Char) (ps : List Char) : List Char → List Char
  | [] => []
  | c :: cs =>
    if p0 = c then
      match hm : dropPat ps cs with
      | some ('\n' :: rem2) => stripOcc p0 ps rem2
      | some rem => stripOcc p0 ps rem
      | none => c :: stripOcc p0 ps cs
    else c :: stripOcc p0 ps cs
termination_by cs => cs.length
decreasing_by
  · have h := dropPat_length ps cs _ hm
    simp at h ⊢; omega
  · have h := dropPat_length ps cs _ hm
    simp at h ⊢; omega
  · simp
  · simp

/-- The response cleanup of the llm handler: remove the fenced code block
markers matching the two global replaces (first the json fence opener,
then any bare fence), then trim surrounding whitespace. -/
def cleanResponse (s : String) : String :=
  jsTrim (String.mk (stripOcc '`' ['`', '`']
    (stripOcc '`' ['`', '`', 'j', 's', 'o', 'n'] s.toList)))

/-- Drops the given pattern from the front of a character list comparing
case-insensitively; none when the list does not start with the pattern. -/
def dropPatCI : List Char → List Char → Option (List Char)
  | [], cs => some cs
  | _ :: _, [] => none
  | p :: ps, c :: cs => if p.toLower = c.toLower then dropPatCI ps cs else none

/-- Numeric value of a digit list, as parseInt computes it in base 10. -/
def digitsVal (ds : List Char) : Nat :=
  ds.foldl (fun a c => a * 10 + (c.toNat - '0'.toNat)) 0

/-- Matches the part of the score regex after the word score: a run of
quote or whitespace characters, an optional colon, a run of whitespace,
then one or more digits, whose value is returned. -/
def scoreTail (cs : List Char) : Option Nat :=
  let cs1 := cs.dropWhile (fun c => c = '"' || isJsWs c)
  let cs2 := match cs1 with
    | ':' :: r => r
    | _ => cs1
  let cs3 := cs2.dropWhile isJsWs
  let ds := cs3.takeWhile Char.isDigit
  if ds.isEmpty then none else some (digitsVal ds)

/-- The fallback score extraction of the llm handler, modelling the
case-insensitive regex that matches the word score, then quote or
whitespace characters, an optional colon, whitespace, and a digit group:
scan left to right and return the digit group of the first position where
the whole pattern matches. -/
def findScore : List Char → Option Nat
  | [] => none
  | c :: cs =>
    match dropPatCI ['s', 'c', 'o', 'r', 'e'] (c :: cs) with
    | some rest =>
      match scoreTail rest with
      | some n => some n
      | none => findScore cs
    | none => findScore cs

/-- The response of the Workers AI binding as seen by the llm handler: a
plain string, an object carrying a response field, or anything else
(which makes the handler throw into its own catch). -/
inductive AiResp where
  | str (s : String) : AiResp
  | objWithResponse (s : String) : AiResp
  | other : AiResp

/-- Reads a string-valued configuration field with a JavaScript falsy
fallback to the default, as the llm handler does for its prompt and model
options. -/
def configStr (config : Config) (k : String) (dflt : String) : String :=
  match lookupConfig config k with
  | some (.str s) => if s = "" then dflt else s
  | _ => dflt
where
  lookupConfig : Config → String → Option JVal
    | [], _ => none
    | p :: fs, key => if p.1 = key then some p.2 else lookupConfig fs key

/-- Default model of the llm handler. -/
def defaultModel : String := "@cf/meta/llama-3-8b-instruct"

/-- Default evaluation prompt of the llm handler. -/
def defaultPrompt : String :=
  "Evaluate this code for quality, readability, and best practices. Provide a score from 0-100."

/-- A field of the parsed model reply with a JavaScript falsy fallback, as
used for the reasoning, strengths and improvements fields. -/
def jvOr (o : Option JVal) (dflt : JVal) : JVal :=
  match o with
  | some v => if jvTruthy v then v else dflt
  | none => dflt

/-- The body of the llm evaluation handler. JSON.parse is host
functionality and is passed in as a function from text to an optional
parsed value (none modelling a parse exception); the AI binding is passed
in as a function of the model, the prompt and the source code. The
handler extracts the reply text, strips code fences and tries strict JSON
parsing, clamping a numeric score field to the interval from 0 to 100 and
defaulting to 50 otherwise; on a parse failure it falls back to the score
regex over the raw reply with the same clamp, defaulting to 50, and
annotates the details with a parseError. A reply of an unexpected shape
throws into the outer catch, which returns a zero score with the error
message. -/
def llmResult (jsonParse : String → Option JVal)
    (ai : String → String → String → AiResp)
    (sourceCode : String) (config : Config) : TestResult :=
  let prompt := configStr config "prompt" defaultPrompt
  let model := configStr config "model" defaultModel
  let rt : Option String :=
    match ai model prompt sourceCode with
    | .str s => some s
    | .objWithResponse s => some s
    | .other => none
  match rt with
  | none => ⟨0, [], some "Unexpected response format from AI model"⟩
  | some responseText =>
    match jsonParse (cleanResponse responseText) with
    | none =>
      let rawScore : ℚ :=
        match findScore responseText.toList with
        | some n => (n : ℚ)
        | none => 50
      ⟨min 100 (max 0 rawScore),
       [("reasoning", .str responseText),
        ("parseError", .str "Failed to parse JSON response"),
        ("rawResponse", .str responseText)], none⟩
    | some parsed =>
      let score : ℚ :=
        match jsGetField parsed "score" with
        | some (.num q) => min 100 (max 0 q)
        | _ => 50
      ⟨score,
       [("reasoning", jvOr (jsGetField parsed "reasoning") (.str "No reasoning provided")),
        ("strengths", jvOr (jsGetField parsed "strengths") (.arr [])),
        ("improvements", jvOr (jsGetField parsed "improvements") (.arr [])),
        ("rawResponse", .str responseText)], none⟩

/-- The llm evaluation handler: its whole body is wrapped in a try/catch
whose only internal throw is already folded into llmResult, so it always
returns its TestResult. -/
def handleLLMEvaluation (jsonParse : String → Option JVal)
    (ai : String → String → String → AiResp) : HandlerFn :=
  fun sourceCode config => .ok (llmResult jsonParse ai sourceCode config)

/-- The handler registry of the evaluator worker: exactly the linter and
llm evaluation handlers. -/
def testHandlers (basicLint : String → List LintIssue × List LintIssue)
    (jsonParse : String → Option JVal)
    (ai : String → String → String → AiResp) : String → Option HandlerFn :=
  fun ty =>
    if ty = "linter" then some (handleLinter basicLint)
    else if ty = "llm_evaluation" then some (handleLLMEvaluation jsonParse ai)
    else none

/-- The body of a generation request as the generator worker reads it
from JSON: each of the four contract fields may be absent (none) or
present with a string value. -/
structure GenerateRequest where
  orchestrator_id : Option String
  artifact_id : Option String
  meta_prompt : Option String
  output_r2_path : Option String

/-- JavaScript truthiness of an optional string field: an absent field
and an empty string are both falsy. -/
def truthyField : Option String → Bool
  | none => false
  | some s => s != ""

/-- The possible HTTP responses of the generator worker fetch handler. -/
inductive GenHttp where
  | methodNotAllowed : GenHttp
  | invalidBody : GenHttp
  | missingFields : GenHttp
  | accepted : GenHttp

/-- HTTP status code of a generator response. -/
def genStatus : GenHttp → Nat
  | .methodNotAllowed => 405
  | .invalidBody => 400
  | .missingFields => 400
  | .accepted => 202

/-- HTTP body of a generator response; the accepted response has a null
body. -/
def genRespBody : GenHttp → Option String
  | .methodNotAllowed => some "Method not allowed"
  | .invalidBody => some "Invalid request body"
  | .missingFields => some "Missing required fields"
  | .accepted => none

/-- The generator worker fetch handler: reject non-POST methods with 405;
a body that fails to parse as JSON is caught and becomes a 400; a payload
in which any of the four required fields is falsy is rejected with 400;
otherwise the long-running task is deferred and the response is an
immediate 202 with a null body. -/
def generatorFetch (method : String) (body : Option GenerateRequest) : GenHttp :=
  if method ≠ "POST" then .methodNotAllowed
  else
    match body with
    | none => .invalidBody
    | some p =>
      if !truthyField p.orchestrator_id || !truthyField p.artifact_id
          || !truthyField p.meta_prompt || !truthyField p.output_r2_path then
        .missingFields
      else .accepted

/-- Outcome of one step of the asynchronous generation job: a returned
value or a thrown exception carrying its message. -/
inductive StepResult (α : Type) where
  | ok (a : α) : StepResult α
  | fail (msg : String) : StepResult α

/-- Token usage, from the CostMetrics contract. -/
structure CostMetrics where
  prompt_tokens : Nat
  completion_tokens : Nat

/-- Status of a generation report, from the ReportGenerationRequest
contract. -/
inductive RStatus where
  | SUCCESS : RStatus
  | FAILED : RStatus

/-- A generation report, from the ReportGenerationRequest contract. -/
structure Report where
  artifact_id : String
  r2_path : Option String
  status : RStatus
  cost_metrics : CostMetrics

/-- The response of the Workers AI binding as seen by the generation job:
a plain string, an object with an optional response string and optional
usage, or anything else (which makes the job throw). -/
inductive GenAiResp where
  | str (s : String) : GenAiResp
  | obj (response : Option String) (usage : Option CostMetrics) : GenAiResp
  | other : GenAiResp

/-- The payload of an accepted generation job, with all four fields
present. -/
structure GenPayload where
  orchestrator_id : String
  artifact_id : String
  meta_prompt : String
  output_r2_path : String

/-- The bindings used by the asynchronous generation job, as functions
whose outcomes model success or a thrown exception: resolving the
orchestrator stub from its id string, the AI call on the prompt, the R2
write of path and content, and the report callback POST. -/
structure GenEnv where
  idFromString : String → StepResult Unit
  aiRun : String → StepResult GenAiResp
  r2put : String → String → StepResult Unit
  postReport : Report → StepResult Unit

/-- Extraction of the generated content and the cost metrics from the AI
response: a string response carries zero usage; an object takes its
response field with a falsy fallback to its string conversion and its
usage fields with fallback zero; any other shape throws. -/
def extractContent : GenAiResp → StepResult (String × CostMetrics)
  | .str s => .ok (s, ⟨0, 0⟩)
  | .obj response usage =>
    let content :=
      match response with
      | some s => if s = "" then "[object Object]" else s
      | none => "[object Object]"
    let cost :=
      match usage with
      | some u => u
      | none => (⟨0, 0⟩ : CostMetrics)
    .ok (content, cost)
  | .other => .fail "Unexpected AI response format"

/-- The failure report posted when a generation step fails: null r2 path,
FAILED status, zero usage. -/
def failureReport (p : GenPayload) : Report :=
  ⟨p.artifact_id, none, .FAILED, ⟨0, 0⟩⟩

/-- The success report posted when generation completes. -/
def successReport (p : GenPayload) (cost : CostMetrics) : Report :=
  ⟨p.artifact_id, some p.output_r2_path, .SUCCESS, cost⟩

/-- The catch block of the generation job: resolve the orchestrator stub
again and POST the failure report, swallowing any error of the callback
itself; the function returns the reports whose POST was attempted, and
both outcomes of the failure POST produce the same result. -/
def failurePath (env : GenEnv) (p : GenPayload) (attempted : List Report) : List Report :=
  match env.idFromString p.orchestrator_id with
  | .fail _ => attempted
  | .ok _ =>
    match env.postReport (failureReport p) with
    | .ok _ => attempted ++ [failureReport p]
    | .fail _ => attempted ++ [failureReport p]

/-- The asynchronous generation job: resolve the orchestrator stub, call
the model, extract content and cost, write the artifact to R2, and POST
the success report; any failure drops into the catch block, which posts
the failure report. The value is the list of reports whose POST was
attempted, in order. -/
def handleGeneration (env : GenEnv) (p : GenPayload) : List Report :=
  match env.idFromString p.orchestrator_id with
  | .fail _ => failurePath env p []
  | .ok _ =>
    match env.aiRun p.meta_prompt with
    | .fail _ => failurePath env p []
    | .ok aiResp =>
      match extractContent aiResp with
      | .fail _ => failurePath env p []
      | .ok pair =>
        match env.r2put p.output_r2_path pair.1 with
        | .fail _ => failurePath env p []
        | .ok _ =>
          match env.postReport (successReport p pair.2) with
          | .fail _ => failurePath env p [successReport p pair.2]
          | .ok _ => [successReport p pair.2]

theorem runTest_weight (R : String → Option HandlerFn) (src : String)
    (t : ScorecardTest) : (runTest R src t).weight = t.weight := by
  rcases hR : R t.type with _ | h
  · simp [runTest, hR]
  · rcases hc : h src t.config with r | m <;> simp [runTest, hR, hc]

theorem runTest_type (R : String → Option HandlerFn) (src : String)
    (t : ScorecardTest) : (runTest R src t).type = t.type := by
  rcases hR : R t.type with _ | h
  · simp [runTest, hR]
  · rcases hc : h src t.config with r | m <;> simp [runTest, hR, hc]

theorem collectAux_totalWeight (rs : List TaggedResult) :
    ∀ acc : Agg, (collectAux acc rs).totalWeight
      = acc.totalWeight + (rs.map (fun tr => tr.weight)).sum := by
  induction rs with
  | nil => intro acc; simp [collectAux]
  | cons tr rs ih =>
    intro acc
    simp only [collectAux, ih, List.map_cons, List.sum_cons]
    ring

theorem collectAux_totalWeightedScore (rs : List TaggedResult) :
    ∀ acc : Agg, (collectAux acc rs).totalWeightedScore
      = acc.totalWeightedScore + (rs.map (fun tr => tr.result.score * tr.weight)).sum := by
  induction rs with
  | nil => intro acc; simp [collectAux]
  | cons tr rs ih =>
    intro acc
    simp only [collectAux, ih, List.map_cons, List.sum_cons]
    ring

theorem eval_totalWeight (R : String → Option HandlerFn) (src : String)
    (tests : List ScorecardTest) :
    (collect (tests.map (runTest R src))).totalWeight
      = (tests.map (fun t => t.weight)).sum := by
  unfold collect
  rw [collectAux_totalWeight]
  simp [List.map_map, Function.comp_def, runTest_weight]

theorem eval_totalWeightedScore (R : String → Option HandlerFn) (src : String)
    (tests : List ScorecardTest) :
    (collect (tests.map (runTest R src))).totalWeightedScore
      = (tests.map (fun t => (runTest R src t).result.score * t.weight)).sum := by
  unfold collect
  rw [collectAux_totalWeightedScore]
  simp [List.map_map, Function.comp_def, runTest_weight]

theorem objGet_objSet_self (d : Details) (k : String) (v : TestResult) :
    objGet (objSet d k v) k = some v := by
  induction d with
  | nil => simp [objSet, objGet]
  | cons p d ih =>
    by_cases h : p.1 = k
    · simp [objSet, objGet, h]
    · simp [objSet, objGet, h, ih]

theorem objGet_objSet_ne (d : Details) (k' k : String) (v : TestResult)
    (h : k' ≠ k) : objGet (objSet d k' v) k = objGet d k := by
  induction d with
  | nil => simp [objSet, objGet, h]
  | cons p d ih =>
    by_cases hp : p.1 = k'
    · simp [objSet, objGet, hp, h]
    · simp only [objSet, objGet, if_neg hp]
      by_cases hk : p.1 = k
      · simp [objGet, hk]
      · simp [objGet, hk, ih]

theorem collectAux_objGet (rs : List TaggedResult) :
    ∀ (acc : Agg) (k : String),
      objGet (collectAux acc rs).details k
        = match lastResultOf k rs with
          | some r => some r
          | none => objGet acc.details k := by
  induction rs with
  | nil => intro acc k; simp [collectAux, lastResultOf]
  | cons tr rs ih =>
    intro acc k
    simp only [collectAux, lastResultOf]
    rw [ih]
    cases hl : lastResultOf k rs with
    | some r => simp
    | none =>
      by_cases ht : tr.type = k
      · simp [ht, objGet_objSet_self]
      · simp [ht, objGet_objSet_ne _ _ _ _ ht]

theorem keyCount_objSet_ne (d : Details) (k' k : String) (v : TestResult)
    (h : k' ≠ k) : keyCount (objSet d k' v) k = keyCount d k := by
  induction d with
  | nil => simp [objSet, keyCount, h]
  | cons p d ih =>
    by_cases hp : p.1 = k'
    · simp [objSet, keyCount, hp, h]
    · simp [objSet, keyCount, hp, ih]

theorem keyCount_objSet_self (d : Details) (k : String) (v : TestResult) :
    keyCount (objSet d k v) k = max (keyCount d k) 1 := by
  induction d with
  | nil => simp [objSet, keyCount]
  | cons p d ih =>
    by_cases hp : p.1 = k
    · simp [objSet, keyCount, hp]
    · simp [objSet, keyCount, hp, ih]

theorem collectAux_keyCount (rs : List TaggedResult) :
    ∀ (acc : Agg) (k : String), keyCount acc.details k ≤ 1 →
      keyCount (collectAux acc rs).details k ≤ 1 := by
  induction rs with
  | nil => intro acc k h; simpa [collectAux] using h
  | cons tr rs ih =>
    intro acc k h
    simp only [collectAux]
    apply ih
    by_cases ht : tr.type = k
    · subst ht
      rw [keyCount_objSet_self]
      omega
    · rw [keyCount_objSet_ne _ _ _ _ ht]
      exact h

theorem runTest_congr (R R' : String → Option HandlerFn) (src : String)
    (t : ScorecardTest)
    (hsome : (R t.type).isSome = (R' t.type).isSome)
    (hbeh : ∀ h h', R t.type = some h → R' t.type = some h' →
      h src t.config = h' src t.config) :
    runTest R src t = runTest R' src t := by
  cases hR : R t.type with
  | none =>
    cases hR' : R' t.type with
    | none => simp [runTest, hR, hR']
    | some h' => rw [hR, hR'] at hsome; simp at hsome
  | some h =>
    cases hR' : R' t.type with
    | none => rw [hR, hR'] at hsome; simp at hsome
    | some h' =>
      have hb := hbeh h h' hR hR'
      simp [runTest, hR, hR', hb]

/-- A concrete registry used to instantiate the spec example: the linter
handler scores 100 and the llm handler scores 80 on every input. -/
def exampleRegistry : String → Option HandlerFn :=
  fun ty =>
    if ty = "linter" then some (fun _ _ => .ok ⟨100, [], none⟩)
    else if ty = "llm_evaluation" then some (fun _ _ => .ok ⟨80, [], none⟩)
    else none

theorem eval_quality_pos (R : String → Option HandlerFn) (src : String)
    (tests : List ScorecardTest) (h : 0 < (tests.map (fun t => t.weight)).sum) :
    (evalOnSource R src ⟨tests⟩).quality_score
      = (tests.map (fun t => (runTest R src t).result.score * t.weight)).sum
        / (tests.map (fun t => t.weight)).sum := by
  show (if 0 < (collect (tests.map (runTest R src))).totalWeight then _ else _) = _
  rw [eval_totalWeight, eval_totalWeightedScore, if_pos h]

/-- C1: for every evaluation whose artifact exists, the quality score is
the weighted average of the per-test scores, i.e. the sum of weight times
score over all tests divided by the sum of the weights, so weights need
not sum to one; an empty scorecard gives quality score 0; and the spec
example with weights 0.4 and 0.6 and scores 100 and 80 gives 88. -/
theorem evaluator_weighted_average :
    (∀ (R : String → Option HandlerFn) (src : String) (tests : List ScorecardTest),
      0 < (tests.map (fun t => t.weight)).sum →
      (evalOnSource R src ⟨tests⟩).quality_score
        = (tests.map (fun t => (runTest R src t).result.score * t.weight)).sum
          / (tests.map (fun t => t.weight)).sum)
    ∧ (∀ (R : String → Option HandlerFn) (src : String),
        (evalOnSource R src ⟨[]⟩).quality_score = 0)
    ∧ (evalOnSource exampleRegistry "source"
        ⟨[⟨"linter", 2/5, []⟩, ⟨"llm_evaluation", 3/5, []⟩]⟩).quality_score = 88 := by
  refine ⟨eval_quality_pos, ?_, ?_⟩
  · intro R src
    simp [evalOnSource, collect, collectAux]
  · rw [eval_quality_pos _ _ _ (by norm_num)]
    have e1 : runTest exampleRegistry "source" ⟨"linter", 2/5, []⟩
        = ⟨"linter", 2/5, ⟨100, [], none⟩⟩ := rfl
    have e2 : runTest exampleRegistry "source" ⟨"llm_evaluation", 3/5, []⟩
        = ⟨"llm_evaluation", 3/5, ⟨80, [], none⟩⟩ := rfl
    simp only [List.map_cons, List.map_nil, List.sum_cons, List.sum_nil, e1, e2]
    norm_num

/-- Witness for C1: the weighted-average clause applied to the concrete
example registry, a two-test scorecard with weights 0.4 and 0.6 and
handler scores 100 and 80; the hypothesis that the weight sum is positive
is discharged by computation, and the quotient evaluates to 88. -/
theorem evaluator_weighted_average_witness :
    (evalOnSource exampleRegistry "source"
      ⟨[⟨"linter", 2/5, []⟩, ⟨"llm_evaluation", 3/5, []⟩]⟩).quality_score
      = ([(⟨"linter", 2/5, []⟩ : ScorecardTest), ⟨"llm_evaluation", 3/5, []⟩].map
          (fun t => (runTest exampleRegistry "source" t).result.score * t.weight)).sum
        / ([(⟨"linter", 2/5, []⟩ : ScorecardTest), ⟨"llm_evaluation", 3/5, []⟩].map
            (fun t => t.weight)).sum :=
  evaluator_weighted_average.1 exampleRegistry "source"
    [⟨"linter", 2/5, []⟩, ⟨"llm_evaluation", 3/5, []⟩] (by norm_num)

/-- C3: a scorecard test whose type has no registered handler, i.e. is
neither linter nor llm_evaluation, produces the per-test result with score
0 and an unknown test type error instead of raising; its weight still
enters the denominator of the combined score, which sums the weights of
all tests; and the request completes with status 200. -/
theorem evaluator_unknown_test_type :
    ∀ (basicLint : String → List LintIssue × List LintIssue)
      (jsonParse : String → Option JVal)
      (ai : String → String → String → AiResp)
      (src path : String) (r2 : String → Option String)
      (t : ScorecardTest) (tests : List ScorecardTest),
      t.type ≠ "linter" → t.type ≠ "llm_evaluation" →
      (runTest (testHandlers basicLint jsonParse ai) src t
        = ⟨t.type, t.weight, ⟨0, [], some ("Unknown test type: " ++ t.type)⟩⟩)
      ∧ ((collect (tests.map (runTest (testHandlers basicLint jsonParse ai) src))).totalWeight
          = (tests.map (fun tt => tt.weight)).sum)
      ∧ (r2 path = some src →
          evalStatus (evalFetch (testHandlers basicLint jsonParse ai) "POST"
            (some ⟨path, ⟨tests⟩⟩) r2) = 200) := by
  intro basicLint jsonParse ai src path r2 t tests h1 h2
  refine ⟨?_, eval_totalWeight _ _ _, ?_⟩
  · have hreg : testHandlers basicLint jsonParse ai t.type = none := by
      simp [testHandlers, h1, h2]
    simp [runTest, hreg]
  · intro hr2
    simp [evalFetch, hr2, evalStatus]

/-- Witness for C3: a test of the unregistered type static_analysis in a
scorecard together with a linter test; the unknown type hypotheses and the
artifact fetch hypothesis are discharged on concrete values. -/
theorem evaluator_unknown_test_type_witness :
    (runTest (testHandlers (fun _ => ([], [])) (fun _ => none) (fun _ _ _ => .other))
        "code" ⟨"static_analysis", 1, []⟩
      = ⟨"static_analysis", 1, ⟨0, [], some "Unknown test type: static_analysis"⟩⟩)
    ∧ ((collect ([(⟨"static_analysis", 1, []⟩ : ScorecardTest), ⟨"linter", 1, []⟩].map
          (runTest (testHandlers (fun _ => ([], [])) (fun _ => none) (fun _ _ _ => .other))
            "code"))).totalWeight
        = ([(⟨"static_analysis", 1, []⟩ : ScorecardTest), ⟨"linter", 1, []⟩].map
            (fun tt => tt.weight)).sum)
    ∧ evalStatus (evalFetch (testHandlers (fun _ => ([], [])) (fun _ => none)
        (fun _ _ _ => .other)) "POST"
        (some ⟨"a.html", ⟨[⟨"static_analysis", 1, []⟩, ⟨"linter", 1, []⟩]⟩⟩)
        (fun _ => some "code")) = 200 := by
  have h := evaluator_unknown_test_type (fun _ => ([], [])) (fun _ => none)
    (fun _ _ _ => .other) "code" "a.html" (fun _ => some "code")
    ⟨"static_analysis", 1, []⟩ [⟨"static_analysis", 1, []⟩, ⟨"linter", 1, []⟩]
    (by decide) (by decide)
  exact ⟨h.1, h.2.1, h.2.2 rfl⟩

/-- C9: when a scorecard contains several tests of the same type, every
occurrence contributes its weight and its weighted score to the combined
quality score, but the details record is keyed by test type, so looking a
type up in the returned details yields the result of the last occurrence,
and no type has more than one binding in the record. -/
theorem evaluator_duplicate_type_details :
    ∀ (R : String → Option HandlerFn) (src : String)
      (tests : List ScorecardTest) (ty : String),
      objGet (evalOnSource R src ⟨tests⟩).details ty
        = lastResultOf ty (tests.map (runTest R src))
      ∧ keyCount (evalOnSource R src ⟨tests⟩).details ty ≤ 1
      ∧ (collect (tests.map (runTest R src))).totalWeight
          = (tests.map (fun t => t.weight)).sum
      ∧ (collect (tests.map (runTest R src))).totalWeightedScore
          = (tests.map (fun t => (runTest R src t).result.score * t.weight)).sum := by
  intro R src tests ty
  refine ⟨?_, ?_, eval_totalWeight _ _ _, eval_totalWeightedScore _ _ _⟩
  · show objGet (collect (tests.map (runTest R src))).details ty = _
    unfold collect
    rw [collectAux_objGet]
    cases lastResultOf ty (tests.map (runTest R src)) with
    | none => simp [objGet]
    | some r => simp
  · show keyCount (collect (tests.map (runTest R src))).details ty ≤ 1
    unfold collect
    exact collectAux_keyCount _ _ _ (by simp [keyCount])

/-- C4: for every source text and linter configuration, the linter handler
scores max(0, 100 - 10 x errorCount - 2 x warningCount) for the issue
counts produced by the lint pass, the score always lies between 0 and 100,
empty or whitespace-only input scores exactly 100 with zero errors and
warnings, and the handler returns rather than throwing. -/
theorem linter_score_formula :
    ∀ (lint : String → List LintIssue × List LintIssue) (src : String) (cfg : Config),
      (jsTrim src = "" →
        linterResult lint src cfg
          = ⟨100, [("errors", .num 0), ("warnings", .num 0), ("totalIssues", .num 0),
                   ("messages", .arr [])], none⟩)
      ∧ (jsTrim src ≠ "" →
          (linterResult lint src cfg).score
            = max 0 (100 - 10 * ((lint src).1.length : ℚ) - 2 * ((lint src).2.length : ℚ)))
      ∧ (0 ≤ (linterResult lint src cfg).score ∧ (linterResult lint src cfg).score ≤ 100)
      ∧ handleLinter lint src cfg = .ok (linterResult lint src cfg) := by
  intro lint src cfg
  have hbody : ∀ h : ¬(src = "" ∨ jsTrim src = ""),
      (linterResult lint src cfg).score
        = max 0 (100 - 10 * ((lint src).1.length : ℚ) - 2 * ((lint src).2.length : ℚ)) := by
    intro h
    simp only [linterResult, if_neg h]
    congr 1
    ring
  refine ⟨?_, ?_, ?_, rfl⟩
  · intro h
    simp only [linterResult, if_pos (Or.inr h)]
  · intro h
    refine hbody ?_
    rintro (h0 | ht)
    · exact h (by rw [h0]; rfl)
    · exact h ht
  · by_cases hc : src = "" ∨ jsTrim src = ""
    · simp only [linterResult, if_pos hc]
      norm_num
    · rw [hbody hc]
      constructor
      · exact le_max_left 0 _
      · have h1 : (0 : ℚ) ≤ 10 * ((lint src).1.length : ℚ) := by positivity
        have h2 : (0 : ℚ) ≤ 2 * ((lint src).2.length : ℚ) := by positivity
        rw [max_le_iff]
        constructor <;> linarith

/-- Witness for C4: a lint pass reporting one error and two warnings on a
non-whitespace source; the whitespace hypothesis is discharged by
computation and the formula yields 86. -/
theorem linter_score_formula_witness :
    jsTrim "let x = 1" ≠ ""
    ∧ (linterResult (fun _ => ([⟨1, 1, "error", "m", "r"⟩],
        [⟨1, 2, "warning", "m", "r"⟩, ⟨2, 1, "warning", "m", "r"⟩])) "let x = 1" []).score
      = max 0 (100 - 10 * ((([(⟨1, 1, "error", "m", "r"⟩ : LintIssue)],
          [(⟨1, 2, "warning", "m", "r"⟩ : LintIssue), ⟨2, 1, "warning", "m", "r"⟩]).1.length : ℚ))
        - 2 * ((([(⟨1, 1, "error", "m", "r"⟩ : LintIssue)],
          [(⟨1, 2, "warning", "m", "r"⟩ : LintIssue), ⟨2, 1, "warning", "m", "r"⟩]).2.length : ℚ))) :=
  ⟨by decide,
   (linter_score_formula (fun _ => ([⟨1, 1, "error", "m", "r"⟩],
      [⟨1, 2, "warning", "m", "r"⟩, ⟨2, 1, "warning", "m", "r"⟩])) "let x = 1" []).2.1
    (by decide)⟩

/-- C2: if the handler of one scorecard test throws, the evaluator turns
the exception into a per-test result with score 0 and the exception
message for that test only; the response status is still 200; and every
other test whose own handler call is unchanged produces the same tagged
result as under a registry in which the failing call does not throw. -/
theorem evaluator_handler_fault_isolation :
    ∀ (R R2 : String → Option HandlerFn) (src path : String)
      (r2 : String → Option String) (tests : List ScorecardTest)
      (i : Nat) (t : ScorecardTest) (hFn : HandlerFn) (msg : String),
      tests[i]? = some t →
      R t.type = some hFn →
      hFn src t.config = .exn msg →
      (∀ j t2, j ≠ i → tests[j]? = some t2 → runTest R src t2 = runTest R2 src t2) →
      r2 path = some src →
      ((tests.map (runTest R src))[i]? = some ⟨t.type, t.weight, ⟨0, [], some msg⟩⟩
       ∧ (∀ j, j ≠ i →
           (tests.map (runTest R src))[j]? = (tests.map (runTest R2 src))[j]?)
       ∧ evalStatus (evalFetch R "POST" (some ⟨path, ⟨tests⟩⟩) r2) = 200) := by
  intro R R2 src path r2 tests i t hFn msg hget hreg hthrow hother hr2
  refine ⟨?_, ?_, ?_⟩
  · rw [List.getElem?_map, hget]
    simp [runTest, hreg, hthrow]
  · intro j hj
    rw [List.getElem?_map, List.getElem?_map]
    cases hg : tests[j]? with
    | none => rfl
    | some t2 => simp [hother j t2 hj hg]
  · simp [evalFetch, hr2, evalStatus]

/-- Witness for C2: a two-test scorecard in which the linter handler
throws under the first registry but not under the second; the hypotheses
are discharged on the concrete registries, and the second llm test has the
same result under both. -/
theorem evaluator_handler_fault_isolation_witness :
    (([(⟨"linter", 1, []⟩ : ScorecardTest), ⟨"llm_evaluation", 1, []⟩].map
        (runTest (fun ty => if ty = "linter" then some (fun _ _ => .exn "Handler crashed")
          else if ty = "llm_evaluation" then some (fun _ _ => .ok ⟨75, [], none⟩)
          else none) "code"))[0]?
      = some ⟨"linter", 1, ⟨0, [], some "Handler crashed"⟩⟩)
    ∧ (∀ j, j ≠ 0 →
        (([(⟨"linter", 1, []⟩ : ScorecardTest), ⟨"llm_evaluation", 1, []⟩].map
            (runTest (fun ty => if ty = "linter" then some (fun _ _ => .exn "Handler crashed")
              else if ty = "llm_evaluation" then some (fun _ _ => .ok ⟨75, [], none⟩)
              else none) "code"))[j]?
          = ([(⟨"linter", 1, []⟩ : ScorecardTest), ⟨"llm_evaluation", 1, []⟩].map
              (runTest (fun ty => if ty = "linter" then some (fun _ _ => .ok ⟨90, [], none⟩)
                else if ty = "llm_evaluation" then some (fun _ _ => .ok ⟨75, [], none⟩)
                else none) "code"))[j]?))
    ∧ evalStatus (evalFetch (fun ty => if ty = "linter" then some (fun _ _ => .exn "Handler crashed")
        else if ty = "llm_evaluation" then some (fun _ _ => .ok ⟨75, [], none⟩)
        else none) "POST"
        (some ⟨"a.html", ⟨[⟨"linter", 1, []⟩, ⟨"llm_evaluation", 1, []⟩]⟩⟩)
        (fun _ => some "code")) = 200 :=
  evaluator_handler_fault_isolation
    (fun ty => if ty = "linter" then some (fun _ _ => .exn "Handler crashed")
      else if ty = "llm_evaluation" then some (fun _ _ => .ok ⟨75, [], none⟩)
      else none)
    (fun ty => if ty = "linter" then some (fun _ _ => .ok ⟨90, [], none⟩)
      else if ty = "llm_evaluation" then some (fun _ _ => .ok ⟨75, [], none⟩)
      else none)
    "code" "a.html" (fun _ => some "code")
    [⟨"linter", 1, []⟩, ⟨"llm_evaluation", 1, []⟩] 0 ⟨"linter", 1, []⟩
    (fun _ _ => .exn "Handler crashed") "Handler crashed"
    rfl rfl rfl
    (by
      intro j t2 hj hget
      match j with
      | 0 => exact absurd rfl hj
      | 1 =>
        have ht2 : t2 = ⟨"llm_evaluation", 1, []⟩ := by
          simpa using hget.symm
        subst ht2
        rfl
      | n + 2 => simp at hget)
    rfl

/-- C8: the evaluator introduces no nondeterminism of its own: two runs on
the same artifact source and the same scorecard, under two registries that
register the same test types and whose handlers behave as the same pure
function of the source and the configuration, produce identical
evaluation responses, and identical HTTP results for any request. -/
theorem evaluator_deterministic :
    ∀ (R R2 : String → Option HandlerFn) (src : String) (sc : Scorecard)
      (method : String) (body : Option EvaluationRequest)
      (r2 : String → Option String),
      (∀ ty, (R ty).isSome = (R2 ty).isSome) →
      (∀ ty h h2, R ty = some h → R2 ty = some h2 →
        ∀ s c, h s c = h2 s c) →
      evalOnSource R src sc = evalOnSource R2 src sc
      ∧ evalFetch R method body r2 = evalFetch R2 method body r2 := by
  intro R R2 src sc method body r2 hsome hbeh
  have hmap : ∀ (s : String) (tests : List ScorecardTest),
      tests.map (runTest R s) = tests.map (runTest R2 s) := by
    intro s tests
    induction tests with
    | nil => rfl
    | cons t ts ih =>
      rw [List.map_cons, List.map_cons, ih,
        runTest_congr R R2 s t (hsome t.type) (fun h h2 hh hh2 => hbeh t.type h h2 hh hh2 s t.config)]
  have hsrc : ∀ (s : String) (sc2 : Scorecard),
      evalOnSource R s sc2 = evalOnSource R2 s sc2 := by
    intro s sc2
    unfold evalOnSource
    rw [hmap s sc2.tests]
  refine ⟨hsrc src sc, ?_⟩
  by_cases hm : method ≠ "POST"
  · simp [evalFetch, hm]
  · simp only [evalFetch, if_neg hm]
    cases body with
    | none => rfl
    | some req =>
      cases hr : r2 req.artifact_path with
      | none => simp [hr]
      | some s => simp [hr, hsrc]

/-- Witness for C8: the determinism theorem applied to two identical
copies of the concrete example registry on a concrete request; the
agreement hypotheses are discharged by reflexivity. -/
theorem evaluator_deterministic_witness :
    evalOnSource exampleRegistry "code" ⟨[⟨"linter", 1, []⟩]⟩
      = evalOnSource exampleRegistry "code" ⟨[⟨"linter", 1, []⟩]⟩
    ∧ evalFetch exampleRegistry "POST"
        (some ⟨"a.html", ⟨[⟨"linter", 1, []⟩]⟩⟩) (fun _ => some "code")
      = evalFetch exampleRegistry "POST"
        (some ⟨"a.html", ⟨[⟨"linter", 1, []⟩]⟩⟩) (fun _ => some "code") :=
  evaluator_deterministic exampleRegistry exampleRegistry "code"
    ⟨[⟨"linter", 1, []⟩]⟩ "POST" (some ⟨"a.html", ⟨[⟨"linter", 1, []⟩]⟩⟩)
    (fun _ => some "code")
    (fun _ => rfl)
    (by
      intro ty h h2 hh hh2 s c
      rw [hh] at hh2
      cases hh2
      rfl)

/-- The score regex exactly as the claim sentence states it: the word
score, then whitespace, then a mandatory colon, then whitespace, then a
digit group, matched case-sensitively. This definition follows the words
of the claim, for comparison against findScore, which is modelled from
the source. -/
def specScoreTail (cs : List Char) : Option Nat :=
  match cs.dropWhile isJsWs with
  | ':' :: r =>
    let ds := (r.dropWhile isJsWs).takeWhile Char.isDigit
    if ds.isEmpty then none else some (digitsVal ds)
  | _ => none

/-- Left-to-right scan for the claim-stated score regex. -/
def specFindScore : List Char → Option Nat
  | [] => none
  | c :: cs =>
    match dropPat ['s', 'c', 'o', 'r', 'e'] (c :: cs) with
    | some rest =>
      match specScoreTail rest with
      | some n => some n
      | none => specFindScore cs
    | none => specFindScore cs

/-- Counterexample for C5: on the model reply score 42, which is not
valid JSON (the constant parse function models JSON.parse throwing on
it), the regex stated by the claim finds no score, so the claim predicts
the default score 50, but the handler in the source uses a more
permissive regex with an optional colon and returns 42. -/
theorem llm_regex_fallback_counterexample :
    specFindScore ("score 42".toList) = none
    ∧ (llmResult (fun _ => none) (fun _ _ _ => .str "score 42") "src" []).score = 42
    ∧ ((42 : ℚ) = 50 → False) := by
  refine ⟨by decide, ?_, by decide⟩
  rfl

/-- C5 as amended: for every model reply, the llm handler first strips
fenced code blocks and parses the reply as strict JSON, clamping a
numeric score field to the interval from 0 to 100 and defaulting to 50
when the score field is not numeric; if JSON parsing fails it extracts
the score from the raw text with the case-insensitive regex that matches
the word score, optional quote or whitespace characters, an optional
colon, whitespace and a digit group, clamping the extracted value; if no
score is found it defaults to 50; parse failures annotate the details
with a parseError; and the handler always returns instead of throwing. -/
theorem llm_layered_fallback :
    (∀ (jp : String → Option JVal) (ai : String → String → String → AiResp)
       (src : String) (cfg : Config) (reply : String) (v : JVal) (q : ℚ),
       ai (configStr cfg "model" defaultModel) (configStr cfg "prompt" defaultPrompt) src
         = .str reply →
       jp (cleanResponse reply) = some v →
       jsGetField v "score" = some (.num q) →
       (llmResult jp ai src cfg).score = min 100 (max 0 q))
    ∧ (∀ (jp : String → Option JVal) (ai : String → String → String → AiResp)
         (src : String) (cfg : Config) (reply : String) (v : JVal),
         ai (configStr cfg "model" defaultModel) (configStr cfg "prompt" defaultPrompt) src
           = .str reply →
         jp (cleanResponse reply) = some v →
         (∀ q : ℚ, jsGetField v "score" ≠ some (.num q)) →
         (llmResult jp ai src cfg).score = 50)
    ∧ (∀ (jp : String → Option JVal) (ai : String → String → String → AiResp)
         (src : String) (cfg : Config) (reply : String) (n : Nat),
         ai (configStr cfg "model" defaultModel) (configStr cfg "prompt" defaultPrompt) src
           = .str reply →
         jp (cleanResponse reply) = none →
         findScore reply.toList = some n →
         (llmResult jp ai src cfg).score = min 100 (max 0 (n : ℚ))
         ∧ ("parseError", JVal.str "Failed to parse JSON response")
            ∈ (llmResult jp ai src cfg).details)
    ∧ (∀ (jp : String → Option JVal) (ai : String → String → String → AiResp)
         (src : String) (cfg : Config) (reply : String),
         ai (configStr cfg "model" defaultModel) (configStr cfg "prompt" defaultPrompt) src
           = .str reply →
         jp (cleanResponse reply) = none →
         findScore reply.toList = none →
         (llmResult jp ai src cfg).score = 50
         ∧ ("parseError", JVal.str "Failed to parse JSON response")
            ∈ (llmResult jp ai src cfg).details)
    ∧ (∀ (jp : String → Option JVal) (ai : String → String → String → AiResp)
         (src : String) (cfg : Config),
         handleLLMEvaluation jp ai src cfg = .ok (llmResult jp ai src cfg)) := by
  refine ⟨?_, ?_, ?_, ?_, fun _ _ _ _ => rfl⟩
  · intro jp ai src cfg reply v q hai hjp hscore
    simp [llmResult, hai, hjp, hscore]
  · intro jp ai src cfg reply v hai hjp hscore
    cases hs : jsGetField v "score" with
    | none => simp [llmResult, hai, hjp, hs]
    | some jv =>
      cases jv with
      | num q => exact absurd hs (hscore q)
      | null => simp [llmResult, hai, hjp, hs]
      | bool b => simp [llmResult, hai, hjp, hs]
      | str s2 => simp [llmResult, hai, hjp, hs]
      | arr xs => simp [llmResult, hai, hjp, hs]
      | obj fs => simp [llmResult, hai, hjp, hs]
  · intro jp ai src cfg reply n hai hjp hfind
    have hfind2 : findScore reply.data = some n := hfind
    constructor <;> simp [llmResult, hai, hjp, hfind, hfind2]
  · intro jp ai src cfg reply hai hjp hfind
    have hfind2 : findScore reply.data = none := hfind
    constructor <;> simp [llmResult, hai, hjp, hfind, hfind2] <;> try norm_num

/-- Witness for C5: a reply that is not JSON but contains score: 73; the
hypotheses are discharged on concrete values and the handler extracts and
returns 73 with the parseError annotation. -/
theorem llm_layered_fallback_witness :
    (llmResult (fun _ => none) (fun _ _ _ => .str "final score: 73 overall") "src" []).score
      = min 100 (max 0 ((73 : Nat) : ℚ))
    ∧ ("parseError", JVal.str "Failed to parse JSON response")
       ∈ (llmResult (fun _ => none) (fun _ _ _ => .str "final score: 73 overall") "src" []).details :=
  llm_layered_fallback.2.2.1 (fun _ => none) (fun _ _ _ => .str "final score: 73 overall")
    "src" [] "final score: 73 overall" 73 rfl rfl (by decide)

/-- Counterexample for C6: a POST whose body carries all four fields
present, but with meta_prompt bound to the empty string, is rejected with
400 rather than accepted with 202, because the worker checks truthiness
rather than key presence. -/
theorem generator_present_empty_field_counterexample :
    generatorFetch "POST" (some ⟨some "oid", some "aid", some "", some "out"⟩)
      = .missingFields
    ∧ genStatus (generatorFetch "POST" (some ⟨some "oid", some "aid", some "", some "out"⟩))
      = 400
    ∧ ((202 : Nat) = 400 → False)
    ∧ (some "" : Option String).isSome = true :=
  ⟨rfl, rfl, by decide, rfl⟩

/-- C6 as amended: a non-POST method is answered with 405; a POST whose
parsed body has any of the four fields absent or falsy (empty) is
answered with 400; a POST with all four fields present and non-empty is
answered with 202 with a null body, the work being deferred; and a body
that fails to parse is answered with 400. -/
theorem generator_request_validation :
    (∀ (method : String) (body : Option GenerateRequest),
      method ≠ "POST" →
      generatorFetch method body = .methodNotAllowed
      ∧ genStatus (generatorFetch method body) = 405)
    ∧ (∀ p : GenerateRequest,
        (truthyField p.orchestrator_id = false ∨ truthyField p.artifact_id = false
          ∨ truthyField p.meta_prompt = false ∨ truthyField p.output_r2_path = false) →
        generatorFetch "POST" (some p) = .missingFields
        ∧ genStatus (generatorFetch "POST" (some p)) = 400)
    ∧ (∀ p : GenerateRequest,
        truthyField p.orchestrator_id = true → truthyField p.artifact_id = true →
        truthyField p.meta_prompt = true → truthyField p.output_r2_path = true →
        generatorFetch "POST" (some p) = .accepted
        ∧ genStatus (generatorFetch "POST" (some p)) = 202
        ∧ genRespBody (generatorFetch "POST" (some p)) = none)
    ∧ (generatorFetch "POST" none = .invalidBody
       ∧ genStatus (generatorFetch "POST" none) = 400) := by
  refine ⟨?_, ?_, ?_, rfl, rfl⟩
  · intro method body hm
    constructor <;> simp [generatorFetch, hm, genStatus]
  · intro p hfalsy
    have hcond : (!truthyField p.orchestrator_id || !truthyField p.artifact_id
        || !truthyField p.meta_prompt || !truthyField p.output_r2_path) = true := by
      rcases hfalsy with h | h | h | h <;> simp [h]
    constructor <;> simp [generatorFetch, hcond, genStatus]
  · intro p h1 h2 h3 h4
    refine ⟨?_, ?_, ?_⟩ <;> simp [generatorFetch, h1, h2, h3, h4, genStatus, genRespBody]

/-- Witness for C6 as amended: the rejection clause applied to a payload
with an empty meta_prompt, and the acceptance clause applied to a fully
populated payload. -/
theorem generator_request_validation_witness :
    (generatorFetch "POST" (some ⟨some "oid", some "aid", some "", some "out"⟩)
       = .missingFields
     ∧ genStatus (generatorFetch "POST" (some ⟨some "oid", some "aid", some "", some "out"⟩))
       = 400)
    ∧ (generatorFetch "POST" (some ⟨some "oid", some "aid", some "p", some "out"⟩)
        = .accepted
       ∧ genStatus (generatorFetch "POST" (some ⟨some "oid", some "aid", some "p", some "out"⟩))
        = 202
       ∧ genRespBody (generatorFetch "POST" (some ⟨some "oid", some "aid", some "p", some "out"⟩))
        = none) :=
  ⟨generator_request_validation.2.1 ⟨some "oid", some "aid", some "", some "out"⟩
      (Or.inr (Or.inr (Or.inl rfl))),
   generator_request_validation.2.2.1 ⟨some "oid", some "aid", some "p", some "out"⟩
      rfl rfl rfl rfl⟩

/-- C10: a POST to the generator whose body parses but in which any of
the four required fields is present with an empty string value is
rejected with 400 exactly as when the field is absent, because the worker
validates fields by truthiness. -/
theorem generator_falsy_field_rejected :
    ∀ (oid aid mp orp : Option String),
      (oid = some "" →
        generatorFetch "POST" (some ⟨oid, aid, mp, orp⟩) = .missingFields
        ∧ generatorFetch "POST" (some ⟨oid, aid, mp, orp⟩)
            = generatorFetch "POST" (some ⟨none, aid, mp, orp⟩)
        ∧ genStatus (generatorFetch "POST" (some ⟨oid, aid, mp, orp⟩)) = 400)
      ∧ (aid = some "" →
          generatorFetch "POST" (some ⟨oid, aid, mp, orp⟩) = .missingFields
          ∧ generatorFetch "POST" (some ⟨oid, aid, mp, orp⟩)
              = generatorFetch "POST" (some ⟨oid, none, mp, orp⟩)
          ∧ genStatus (generatorFetch "POST" (some ⟨oid, aid, mp, orp⟩)) = 400)
      ∧ (mp = some "" →
          generatorFetch "POST" (some ⟨oid, aid, mp, orp⟩) = .missingFields
          ∧ generatorFetch "POST" (some ⟨oid, aid, mp, orp⟩)
              = generatorFetch "POST" (some ⟨oid, aid, none, orp⟩)
          ∧ genStatus (generatorFetch "POST" (some ⟨oid, aid, mp, orp⟩)) = 400)
      ∧ (orp = some "" →
          generatorFetch "POST" (some ⟨oid, aid, mp, orp⟩) = .missingFields
          ∧ generatorFetch "POST" (some ⟨oid, aid, mp, orp⟩)
              = generatorFetch "POST" (some ⟨oid, aid, mp, none⟩)
          ∧ genStatus (generatorFetch "POST" (some ⟨oid, aid, mp, orp⟩)) = 400) := by
  intro oid aid mp orp
  refine ⟨?_, ?_, ?_, ?_⟩ <;> intro h <;> subst h <;>
    refine ⟨?_, ?_, ?_⟩ <;> simp [generatorFetch, truthyField, genStatus]

/-- Witness for C10: the meta_prompt clause applied to a payload whose
meta_prompt is the empty string. -/
theorem generator_falsy_field_rejected_witness :
    generatorFetch "POST" (some ⟨some "oid", some "aid", some "", some "out"⟩)
      = .missingFields
    ∧ generatorFetch "POST" (some ⟨some "oid", some "aid", some "", some "out"⟩)
        = generatorFetch "POST" (some ⟨some "oid", some "aid", none, some "out"⟩)
    ∧ genStatus (generatorFetch "POST" (some ⟨some "oid", some "aid", some "", some "out"⟩))
      = 400 :=
  (generator_falsy_field_rejected (some "oid") (some "aid") (some "") (some "out")).2.2.1 rfl

theorem failurePath_eq (env : GenEnv) (p : GenPayload) (acc : List Report) :
    failurePath env p acc
      = match env.idFromString p.orchestrator_id with
        | .fail _ => acc
        | .ok _ => acc ++ [failureReport p] := by
  rcases hid : env.idFromString p.orchestrator_id with u | m
  · rcases hpost : env.postReport (failureReport p) with v | m2 <;>
      simp [failurePath, hid, hpost]
  · simp [failurePath, hid]

/-- C7: for every accepted generation job, a failure of the model call,
of the content extraction, of the blob write, or of the success callback
makes the job post the failure report, whose fields are the artifact id,
a null blob path, status FAILED and zero usage, as the last attempted
callback; and the result of the job never depends on the outcome of
posting non-success reports, so a failing failure callback is swallowed. -/
theorem generator_failure_reporting :
    (∀ p : GenPayload, failureReport p = ⟨p.artifact_id, none, .FAILED, ⟨0, 0⟩⟩)
    ∧ (∀ (env : GenEnv) (p : GenPayload) (e : String),
        env.idFromString p.orchestrator_id = .ok () →
        env.aiRun p.meta_prompt = .fail e →
        handleGeneration env p = [failureReport p])
    ∧ (∀ (env : GenEnv) (p : GenPayload) (e : String) (r : GenAiResp),
        env.idFromString p.orchestrator_id = .ok () →
        env.aiRun p.meta_prompt = .ok r →
        extractContent r = .fail e →
        handleGeneration env p = [failureReport p])
    ∧ (∀ (env : GenEnv) (p : GenPayload) (e : String) (r : GenAiResp)
         (content : String) (cost : CostMetrics),
        env.idFromString p.orchestrator_id = .ok () →
        env.aiRun p.meta_prompt = .ok r →
        extractContent r = .ok (content, cost) →
        env.r2put p.output_r2_path content = .fail e →
        handleGeneration env p = [failureReport p])
    ∧ (∀ (env : GenEnv) (p : GenPayload) (e : String) (r : GenAiResp)
         (content : String) (cost : CostMetrics),
        env.idFromString p.orchestrator_id = .ok () →
        env.aiRun p.meta_prompt = .ok r →
        extractContent r = .ok (content, cost) →
        env.r2put p.output_r2_path content = .ok () →
        env.postReport (successReport p cost) = .fail e →
        handleGeneration env p = [successReport p cost, failureReport p])
    ∧ (∀ (env env2 : GenEnv) (p : GenPayload),
        env.idFromString = env2.idFromString →
        env.aiRun = env2.aiRun →
        env.r2put = env2.r2put →
        (∀ r : Report, r.status = .SUCCESS → env.postReport r = env2.postReport r) →
        handleGeneration env p = handleGeneration env2 p) := by
  refine ⟨fun p => rfl, ?_, ?_, ?_, ?_, ?_⟩
  · intro env p e hid hai
    simp [handleGeneration, hid, hai, failurePath_eq]
  · intro env p e r hid hai hex
    simp [handleGeneration, hid, hai, hex, failurePath_eq]
  · intro env p e r content cost hid hai hex hput
    simp [handleGeneration, hid, hai, hex, hput, failurePath_eq]
  · intro env p e r content cost hid hai hex hput hpost
    simp [handleGeneration, hid, hai, hex, hput, hpost, failurePath_eq]
  · intro env env2 p h1 h2 h3 h4
    have hfp : ∀ acc, failurePath env p acc = failurePath env2 p acc := by
      intro acc
      rw [failurePath_eq, failurePath_eq, h1]
    have h5 : ∀ cost : CostMetrics,
        env.postReport (successReport p cost) = env2.postReport (successReport p cost) :=
      fun cost => h4 (successReport p cost) rfl
    unfold handleGeneration
    simp only [h1, h2, h3, hfp, h5]

/-- Witness for C7: a job whose model call fails and whose report
callback also fails; the hypotheses are discharged on the concrete
bindings, the failure report is still the attempted callback, and its
fields are as stated. -/
theorem generator_failure_reporting_witness :
    handleGeneration
        ⟨fun _ => .ok (), fun _ => .fail "model down", fun _ _ => .ok (),
         fun _ => .fail "callback down"⟩
        ⟨"oid", "art", "prompt", "out"⟩
      = [failureReport ⟨"oid", "art", "prompt", "out"⟩]
    ∧ failureReport ⟨"oid", "art", "prompt", "out"⟩
      = ⟨"art", none, .FAILED, ⟨0, 0⟩⟩ :=
  ⟨generator_failure_reporting.2.1
      ⟨fun _ => .ok (), fun _ => .fail "model down", fun _ _ => .ok (),
       fun _ => .fail "callback down"⟩
      ⟨"oid", "art", "prompt", "out"⟩ "model down" rfl rfl,
   generator_failure_reporting.1 ⟨"oid", "art", "prompt", "out"⟩⟩

end SRAL


